import Mathlib

/-
  Shallow embedding of drivers/watchdog/of_xilinx_wdt.c (window-watchdog
  variant and the probe/selftest/suspend paths), with theorems checking the
  specification claims against it.

  Registers are modelled as plain 32-bit storage: a read returns the last
  written value; iowrite32 truncates to 32 bits.  Machine integers are Nat
  with explicit reductions modulo 2^32 or 2^64 where the C types truncate.
-/

/-- Register offsets and masks from the source, values only. -/
def XWT_WWDT_MWR_MASK : Nat := 1

def XWT_WWDT_ESR_WINT_MASK : Nat := 2 ^ 16

def XWT_WWDT_ESR_WSW_MASK : Nat := 2 ^ 8

def XWT_WWDT_ESR_WEN_MASK : Nat := 1

def XWT_WWDT_SBC_MASK : Nat := 0xFF00

def XWT_WWDT_SBC_SHIFT : Nat := 16

def XWT_WWDT_BSS_MASK : Nat := 0xC0

def XWT_WWDT_DEFAULT_TIMEOUT : Nat := 10

def XWT_WWDT_MIN_TIMEOUT : Nat := 1

def XWT_MAX_SELFTEST_LOOP_COUNT : Nat := 0x00010000

def XWT_TIMER_FAILED : Nat := 0xFFFFFFFF

def U32_MAX : Nat := 2 ^ 32 - 1

/-- Truncation to a 32-bit value, as iowrite32 and a cast to u32 do. -/
def u32 (x : Nat) : Nat := x % 2 ^ 32

/-- Bitwise complement of a 32-bit value. -/
def u32not (x : Nat) : Nat := 2 ^ 32 - 1 - x % 2 ^ 32

/-- Subtraction of u64 values with wraparound, as in C. -/
def u64sub (a b : Nat) : Nat := (a % 2 ^ 64 + 2 ^ 64 - b % 2 ^ 64) % 2 ^ 64

/-- The five window-watchdog registers (MWR, ESR, FCR, FWR, SWR). -/
structure WWdtRegs where
  mwr : Nat
  esr : Nat
  fcr : Nat
  fwr : Nat
  swr : Nat
deriving DecidableEq

/-- Device state: register block, timeout configuration held in the
watchdog_device, the framework active flag, and clock enable/disable
counters recording calls into the clock collaborator. -/
structure WWdtState where
  regs : WWdtRegs
  timeout : Nat
  pretimeout : Nat
  min_timeout : Nat
  max_timeout : Nat
  active : Bool
  clkEnables : Nat
  clkDisables : Nat
deriving DecidableEq

/-- Error taxonomy for the operation results; the C code returns -EINVAL in
all three cases, distinguished here by which check fired. -/
inductive WdtError where
  | WindowViolation
  | ConfigurationError
  | ClockError
deriving DecidableEq

/-- Mirrors is_wwdt_in_closed_window: reads ESR; if WEN is set and WSW is
clear it returns 0, otherwise 1. -/
def is_wwdt_in_closed_window (esr : Nat) : Nat :=
  if esr &&& XWT_WWDT_ESR_WEN_MASK ≠ 0 then
    if esr &&& XWT_WWDT_ESR_WSW_MASK = 0 then 0
    else 1
  else 1

/-- Mirrors xilinx_wwdt_start for clock rate f: fails when the rate is 0,
computes the u64 cycle counts, enables the clock when not already active,
then programs MWR, ESR, the window registers and FCR, and finally sets WEN
by read-modify-write of ESR. -/
def xilinx_wwdt_start (f : Nat) (s : WWdtState) :
    Except WdtError Unit × WWdtState :=
  if f = 0 then (.error .ClockError, s)
  else
    let pre_timeout := f * s.pretimeout % 2 ^ 64
    let time_out := f * s.timeout % 2 ^ 64
    let s :=
      if !s.active then { s with clkEnables := s.clkEnables + 1 } else s
    let r := s.regs
    let r := { r with mwr := u32 XWT_WWDT_MWR_MASK }
    let r := { r with esr := u32not XWT_WWDT_ESR_WEN_MASK }
    let r :=
      if pre_timeout ≠ 0 then
        let r := { r with fwr := u32 (u64sub time_out pre_timeout) }
        let r := { r with swr := u32 pre_timeout }
        let fcr := r.swr
        let fcr := fcr >>> XWT_WWDT_SBC_SHIFT &&& XWT_WWDT_SBC_MASK
        let fcr := fcr ||| XWT_WWDT_BSS_MASK
        { r with fcr := u32 fcr }
      else
        let r := { r with fwr := u32 pre_timeout }
        let r := { r with swr := u32 time_out }
        { r with fcr := 0 }
    let csr := r.esr ||| XWT_WWDT_ESR_WEN_MASK
    let r := { r with esr := u32 csr }
    (.ok (), { s with regs := r })

/-- Mirrors xilinx_wwdt_stop: rejects when not in the closed window; else
writes MWR and clears WEN by writing its complement to ESR, and, if the
device was active, disables the clock once. -/
def xilinx_wwdt_stop (s : WWdtState) : Except WdtError Unit × WWdtState :=
  if is_wwdt_in_closed_window s.regs.esr = 0 then (.error .WindowViolation, s)
  else
    let r := { s.regs with mwr := u32 XWT_WWDT_MWR_MASK }
    let r := { r with esr := u32not XWT_WWDT_ESR_WEN_MASK }
    let s := { s with regs := r }
    let s :=
      if s.active then { s with clkDisables := s.clkDisables + 1 } else s
    (.ok (), s)

/-- Mirrors xilinx_wwdt_keepalive: a refresh outside the closed window is
ignored (success, no writes); otherwise it writes MWR and performs the two
read-modify-write sequences on ESR (set WINT and clear WSW, then set WSW). -/
def xilinx_wwdt_keepalive (s : WWdtState) :
    Except WdtError Unit × WWdtState :=
  if is_wwdt_in_closed_window s.regs.esr = 0 then (.ok (), s)
  else
    let r := { s.regs with mwr := u32 XWT_WWDT_MWR_MASK }
    let c := r.esr
    let c := c ||| XWT_WWDT_ESR_WINT_MASK
    let c := c &&& u32not XWT_WWDT_ESR_WSW_MASK
    let r := { r with esr := u32 c }
    let c := r.esr ||| XWT_WWDT_ESR_WSW_MASK
    let r := { r with esr := u32 c }
    (.ok (), { s with regs := r })

/-- Mirrors xilinx_wwdt_set_timeout: window gate, then range check against
min_timeout/max_timeout, then commit the new timeout, zero the pretimeout,
and restart when active (the restart result is ignored). -/
def xilinx_wwdt_set_timeout (f : Nat) (s : WWdtState) (new_time : Nat) :
    Except WdtError Unit × WWdtState :=
  if is_wwdt_in_closed_window s.regs.esr = 0 then (.error .WindowViolation, s)
  else if new_time < s.min_timeout ∨ new_time > s.max_timeout then
    (.error .ConfigurationError, s)
  else
    let s := { s with timeout := new_time, pretimeout := 0 }
    let s := if s.active then (xilinx_wwdt_start f s).2 else s
    (.ok (), s)

/-- Mirrors xilinx_wwdt_set_pretimeout: window gate, then the range check
rejecting values below min_timeout or at or above the timeout, then commit
and restart when active (the restart result is ignored). -/
def xilinx_wwdt_set_pretimeout (f : Nat) (s : WWdtState)
    (new_pretimeout : Nat) : Except WdtError Unit × WWdtState :=
  if is_wwdt_in_closed_window s.regs.esr = 0 then (.error .WindowViolation, s)
  else if new_pretimeout < s.min_timeout ∨ new_pretimeout ≥ s.timeout then
    (.error .ConfigurationError, s)
  else
    let s := { s with pretimeout := new_pretimeout }
    let s := if s.active then (xilinx_wwdt_start f s).2 else s
    (.ok (), s)

/-- Mirrors xwdt_suspend for the window variant: when active it calls the
stop operation, discarding its result; the return value is always 0. -/
def xwdt_suspend (s : WWdtState) : Nat × WWdtState :=
  if s.active then (0, (xilinx_wwdt_stop s).2) else (0, s)

/-- Mirrors the max_timeout computation in xwdt_probe for the window
variant: (u32)(U32_MAX) / pfreq, with no guard against pfreq = 0 (Nat
division returns 0 there; the C code divides by zero). -/
def xwdt_probe_max_timeout (pfreq : Nat) : Nat := U32_MAX / pfreq

/-- The selftest polling loop: reads is the sequence of values returned by
successive TBR reads, indexed by read number; tv1 is the first read, tv2
the current value, idx the index of the next read, fuel the remaining
iterations allowed by the loop condition.  Returns the final tv2 and the
total number of reads issued so far. -/
def xwdt_selftest_loop (reads : Nat → Nat) (tv1 tv2 idx fuel : Nat) :
    Nat × Nat :=
  match fuel with
  | 0 => (tv2, idx)
  | f + 1 =>
    if tv2 = tv1 then xwdt_selftest_loop reads tv1 (reads idx) (idx + 1) f
    else (tv2, idx)

/-- Mirrors xwdt_selftest: two initial TBR reads, then the polling loop
whose condition i <= XWT_MAX_SELFTEST_LOOP_COUNT allows the body to run
for i = 0 .. 65536, hence cap + 1 iterations.  Returns the C result value
(complement of XWT_TIMER_FAILED on pass, XWT_TIMER_FAILED on fail) paired
with the total number of TBR reads performed. -/
def xwdt_selftest (reads : Nat → Nat) : Nat × Nat :=
  let tv1 := reads 0
  let tv2 := reads 1
  let p := xwdt_selftest_loop reads tv1 tv2 2 (XWT_MAX_SELFTEST_LOOP_COUNT + 1)
  (if p.1 ≠ tv1 then u32not XWT_TIMER_FAILED else XWT_TIMER_FAILED, p.2)

/-- A concrete device state used by the witnesses and counterexamples. -/
def mkS (esr timeout pretimeout : Nat) (active : Bool) : WWdtState :=
  { regs := { mwr := 0, esr := esr, fcr := 0, fwr := 0, swr := 0 },
    timeout := timeout, pretimeout := pretimeout,
    min_timeout := XWT_WWDT_MIN_TIMEOUT, max_timeout := 42,
    active := active, clkEnables := 0, clkDisables := 0 }

/-- The start operation never changes the stored timeout or pretimeout. -/
theorem wwdt_start_preserves_config (f : Nat) (s : WWdtState) :
    (xilinx_wwdt_start f s).2.timeout = s.timeout
    ∧ (xilinx_wwdt_start f s).2.pretimeout = s.pretimeout := by
  unfold xilinx_wwdt_start
  split_ifs <;> simp

example : is_wwdt_in_closed_window 0 = 1 := by decide
example : is_wwdt_in_closed_window 1 = 0 := by decide
example : is_wwdt_in_closed_window 257 = 1 := by decide
example :
    (xilinx_wwdt_start 100000000 (mkS 0 10 0 false)).2.regs.swr
      = 1000000000 := by decide
example :
    (xilinx_wwdt_start 100000000 (mkS 0 10 2 false)).2.regs.fwr
      = 800000000 := by decide
example :
    (xilinx_wwdt_start 100000000 (mkS 0 10 2 false)).2.regs.swr
      = 200000000 := by decide

/-- Claim C2 as stated fails: enabled with the phase-switch bit set, the
classification reads Closed (1), and at such a state stop succeeds and
writes registers, and keepalive also writes registers. -/
theorem C2_counterexample :
    (mkS 257 10 0 true).regs.esr &&& XWT_WWDT_ESR_WEN_MASK ≠ 0
    ∧ (mkS 257 10 0 true).regs.esr &&& XWT_WWDT_ESR_WSW_MASK ≠ 0
    ∧ is_wwdt_in_closed_window 257 = 1
    ∧ (xilinx_wwdt_stop (mkS 257 10 0 true)).1 = .ok ()
    ∧ (xilinx_wwdt_stop (mkS 257 10 0 true)).2.regs ≠ (mkS 257 10 0 true).regs
    ∧ (xilinx_wwdt_keepalive (mkS 257 10 0 true)).2.regs
        ≠ (mkS 257 10 0 true).regs :=
  ⟨by decide, by decide, by decide, rfl, by decide, by decide⟩

/-- Claim C2, amended: the classification reads Closed (1) when the enable
bit is clear, Closed when enable and phase-switch are both set, and Open
(0) when enable is set and phase-switch is clear; with the device enabled
and phase-switch clear, stop returns WindowViolation and keepalive returns
success with no state change. -/
theorem C2_window_state_amended (esr : Nat) (s : WWdtState) :
    (esr &&& XWT_WWDT_ESR_WEN_MASK = 0 → is_wwdt_in_closed_window esr = 1)
    ∧ (esr &&& XWT_WWDT_ESR_WEN_MASK ≠ 0 →
       esr &&& XWT_WWDT_ESR_WSW_MASK ≠ 0 →
        is_wwdt_in_closed_window esr = 1)
    ∧ (esr &&& XWT_WWDT_ESR_WEN_MASK ≠ 0 →
       esr &&& XWT_WWDT_ESR_WSW_MASK = 0 →
        is_wwdt_in_closed_window esr = 0)
    ∧ (s.regs.esr &&& XWT_WWDT_ESR_WEN_MASK ≠ 0 →
       s.regs.esr &&& XWT_WWDT_ESR_WSW_MASK = 0 →
        xilinx_wwdt_stop s = (.error .WindowViolation, s)
        ∧ xilinx_wwdt_keepalive s = (.ok (), s)) := by
  refine ⟨?_, ?_, ?_, fun h1 h2 => ?_⟩
  · intro h; simp [is_wwdt_in_closed_window, h]
  · intro h1 h2; simp [is_wwdt_in_closed_window, h1, h2]
  · intro h1 h2; simp [is_wwdt_in_closed_window, h1, h2]
  · have hc : is_wwdt_in_closed_window s.regs.esr = 0 := by
      simp [is_wwdt_in_closed_window, h1, h2]
    exact ⟨by simp [xilinx_wwdt_stop, hc], by simp [xilinx_wwdt_keepalive, hc]⟩

/-- Witness for the amended C2 at esr = 1 (enabled, phase-switch clear). -/
theorem C2_window_state_amended_witness :
    is_wwdt_in_closed_window 1 = 0
    ∧ xilinx_wwdt_stop (mkS 1 10 0 true)
        = (.error .WindowViolation, mkS 1 10 0 true)
    ∧ xilinx_wwdt_keepalive (mkS 1 10 0 true) = (.ok (), mkS 1 10 0 true) :=
  ⟨(C2_window_state_amended 1 (mkS 1 10 0 true)).2.2.1 (by decide) (by decide),
   ((C2_window_state_amended 1 (mkS 1 10 0 true)).2.2.2
      (by decide) (by decide)).1,
   ((C2_window_state_amended 1 (mkS 1 10 0 true)).2.2.2
      (by decide) (by decide)).2⟩

/-- Claim C3: stop in the Open phase (classification 0) fails with
WindowViolation and changes nothing; in the Closed phase it succeeds, the
resulting ESR has the enable bit clear, and the clock is disabled exactly
once when the device was active and not at all otherwise. -/
theorem C3_stop_gated (s : WWdtState) :
    (is_wwdt_in_closed_window s.regs.esr = 0 →
      xilinx_wwdt_stop s = (.error .WindowViolation, s))
    ∧ (is_wwdt_in_closed_window s.regs.esr ≠ 0 →
      (xilinx_wwdt_stop s).1 = .ok ()
      ∧ (xilinx_wwdt_stop s).2.regs.esr &&& XWT_WWDT_ESR_WEN_MASK = 0
      ∧ (xilinx_wwdt_stop s).2.clkDisables
          = s.clkDisables + if s.active then 1 else 0) := by
  constructor
  · intro h; simp [xilinx_wwdt_stop, h]
  · intro h
    cases hA : s.active <;> simp [xilinx_wwdt_stop, h, hA] <;> decide

/-- Witness for C3 at a closed (esr = 0) active state and an open
(esr = 1) state. -/
theorem C3_stop_gated_witness :
    xilinx_wwdt_stop (mkS 1 10 0 true)
      = (.error .WindowViolation, mkS 1 10 0 true)
    ∧ ((xilinx_wwdt_stop (mkS 0 10 0 true)).1 = .ok ()
      ∧ (xilinx_wwdt_stop (mkS 0 10 0 true)).2.regs.esr
          &&& XWT_WWDT_ESR_WEN_MASK = 0
      ∧ (xilinx_wwdt_stop (mkS 0 10 0 true)).2.clkDisables
          = (mkS 0 10 0 true).clkDisables
            + if (mkS 0 10 0 true).active then 1 else 0) :=
  ⟨(C3_stop_gated (mkS 1 10 0 true)).1 (by decide),
   (C3_stop_gated (mkS 0 10 0 true)).2 (by decide)⟩

/-- Claim C4: keepalive in the Open phase is a silent no-op, returning
success and leaving the whole device state, registers included, unchanged. -/
theorem C4_keepalive_open_noop (s : WWdtState)
    (h : is_wwdt_in_closed_window s.regs.esr = 0) :
    xilinx_wwdt_keepalive s = (.ok (), s) := by
  simp [xilinx_wwdt_keepalive, h]

/-- Witness for C4 at the open state esr = 1. -/
theorem C4_keepalive_open_noop_witness :
    xilinx_wwdt_keepalive (mkS 1 10 0 true) = (.ok (), mkS 1 10 0 true) :=
  C4_keepalive_open_noop (mkS 1 10 0 true) (by decide)

/-- Claim C5: set_timeout and set_pretimeout return WindowViolation exactly
when the window classification reads Open (0) at call time, and on every
error result the whole device state, timeout configuration included, is
returned unchanged. -/
theorem C5_set_ops_gate (f new_time new_pre : Nat) (s : WWdtState) :
    ((xilinx_wwdt_set_timeout f s new_time).1 = .error .WindowViolation
      ↔ is_wwdt_in_closed_window s.regs.esr = 0)
    ∧ ((xilinx_wwdt_set_pretimeout f s new_pre).1 = .error .WindowViolation
      ↔ is_wwdt_in_closed_window s.regs.esr = 0)
    ∧ (∀ e, (xilinx_wwdt_set_timeout f s new_time).1 = .error e →
        (xilinx_wwdt_set_timeout f s new_time).2 = s)
    ∧ (∀ e, (xilinx_wwdt_set_pretimeout f s new_pre).1 = .error e →
        (xilinx_wwdt_set_pretimeout f s new_pre).2 = s) := by
  by_cases hc : is_wwdt_in_closed_window s.regs.esr = 0
  · simp [xilinx_wwdt_set_timeout, xilinx_wwdt_set_pretimeout, hc]
  · refine ⟨?_, ?_, ?_, ?_⟩
    · unfold xilinx_wwdt_set_timeout
      simp [hc]
      split_ifs <;> simp
    · unfold xilinx_wwdt_set_pretimeout
      simp [hc]
      split_ifs <;> simp
    · intro e
      unfold xilinx_wwdt_set_timeout
      simp [hc]
      split_ifs <;> simp
    · intro e
      unfold xilinx_wwdt_set_pretimeout
      simp [hc]
      split_ifs <;> simp

/-- Witness for C5: at the open state esr = 1 both operations fail with
WindowViolation and leave the state unchanged. -/
theorem C5_set_ops_gate_witness :
    (xilinx_wwdt_set_timeout 100000000 (mkS 1 10 0 true) 20).1
      = .error .WindowViolation
    ∧ (xilinx_wwdt_set_timeout 100000000 (mkS 1 10 0 true) 20).2
      = mkS 1 10 0 true :=
  ⟨((C5_set_ops_gate 100000000 20 3 (mkS 1 10 0 true)).1).mpr (by decide),
   ((C5_set_ops_gate 100000000 20 3 (mkS 1 10 0 true)).2.2.1)
     .WindowViolation
     (((C5_set_ops_gate 100000000 20 3 (mkS 1 10 0 true)).1).mpr (by decide))⟩

/-- Claim C6 as stated fails: in the Closed phase (device disabled, so the
gate admits the call), the new pretimeout 0 with timeout 10 satisfies
0 <= P < timeout, yet the code rejects it with ConfigurationError because
the check also requires P >= min_timeout = 1. -/
theorem C6_counterexample :
    is_wwdt_in_closed_window (mkS 0 10 0 false).regs.esr = 1
    ∧ (0 : Nat) < (mkS 0 10 0 false).timeout
    ∧ xilinx_wwdt_set_pretimeout 100000000 (mkS 0 10 0 false) 0
        = (.error .ConfigurationError, mkS 0 10 0 false) :=
  ⟨by decide, by decide, rfl⟩

/-- Claim C6, amended: in the Closed phase, set_pretimeout accepts exactly
the values min_timeout <= P < timeout and commits P; every P below
min_timeout (including 0) or at or above the timeout fails with
ConfigurationError and leaves the state unchanged. -/
theorem C6_set_pretimeout_amended (f P : Nat) (s : WWdtState)
    (hc : is_wwdt_in_closed_window s.regs.esr ≠ 0) :
    (s.min_timeout ≤ P ∧ P < s.timeout →
      (xilinx_wwdt_set_pretimeout f s P).1 = .ok ()
      ∧ (xilinx_wwdt_set_pretimeout f s P).2.pretimeout = P
      ∧ (xilinx_wwdt_set_pretimeout f s P).2.timeout = s.timeout)
    ∧ (P < s.min_timeout ∨ P ≥ s.timeout →
      xilinx_wwdt_set_pretimeout f s P = (.error .ConfigurationError, s)) := by
  constructor
  · rintro ⟨h1, h2⟩
    have hr : ¬(P < s.min_timeout ∨ P ≥ s.timeout) := by omega
    unfold xilinx_wwdt_set_pretimeout
    simp only [hc, if_false, hr, if_neg]
    cases hA : s.active
    · simp [hc, hr, hA]
    · have hp := wwdt_start_preserves_config f
        { s with pretimeout := P, active := true }
      simp only [hc, hr, hA] at *
      simp_all
  · intro hr
    have hr2 : P < s.min_timeout ∨ s.timeout ≤ P := hr
    unfold xilinx_wwdt_set_pretimeout
    simp [hc, hr2]

/-- Witness for the amended C6: P = 2 is accepted and committed, P = 10 is
rejected with ConfigurationError, at a closed inactive state with
timeout 10. -/
theorem C6_set_pretimeout_amended_witness :
    ((xilinx_wwdt_set_pretimeout 100000000 (mkS 0 10 0 false) 2).1 = .ok ()
      ∧ (xilinx_wwdt_set_pretimeout 100000000 (mkS 0 10 0 false) 2).2.pretimeout
        = 2
      ∧ (xilinx_wwdt_set_pretimeout 100000000 (mkS 0 10 0 false) 2).2.timeout
        = (mkS 0 10 0 false).timeout)
    ∧ xilinx_wwdt_set_pretimeout 100000000 (mkS 0 10 0 false) 10
        = (.error .ConfigurationError, mkS 0 10 0 false) :=
  ⟨(C6_set_pretimeout_amended 100000000 2 (mkS 0 10 0 false) (by decide)).1
     (by decide),
   (C6_set_pretimeout_amended 100000000 10 (mkS 0 10 0 false) (by decide)).2
     (by decide)⟩

/-- Claim C7 evaluation: the probe computes max_timeout as U32_MAX / pfreq
with no guard for pfreq = 0; for every rate the value is the floor of
(2^32 - 1) / pfreq, and at pfreq = 0 no error is produced (the embedding
returns 0 where the C code divides by zero). -/
theorem C7_max_timeout_eval :
    xwdt_probe_max_timeout 0 = 0
    ∧ xwdt_probe_max_timeout 100000000 = 42
    ∧ ∀ pfreq, xwdt_probe_max_timeout pfreq = (2 ^ 32 - 1) / pfreq :=
  ⟨rfl, by decide, fun _ => rfl⟩

/-- Claim C9 as stated fails: at an active device in the Open phase
(esr = 1: enabled, phase-switch clear), suspend returns 0 but the gate
inside stop rejects, so no disable happens: the state is unchanged and the
enable bit is still set. -/
theorem C9_counterexample :
    (mkS 1 10 0 true).active = true
    ∧ is_wwdt_in_closed_window (mkS 1 10 0 true).regs.esr = 0
    ∧ (xwdt_suspend (mkS 1 10 0 true)).1 = 0
    ∧ (xwdt_suspend (mkS 1 10 0 true)).2 = mkS 1 10 0 true
    ∧ (mkS 1 10 0 true).regs.esr &&& XWT_WWDT_ESR_WEN_MASK ≠ 0 :=
  ⟨rfl, by decide, rfl, rfl, by decide⟩

/-- Claim C9, amended: suspend always returns 0; when active it invokes the
stop operation, which performs the disable only if the window gate admits
it: in the Closed phase the resulting enable bit is clear, in the Open
phase the state is unchanged; when inactive nothing happens. -/
theorem C9_suspend_amended (s : WWdtState) :
    (xwdt_suspend s).1 = 0
    ∧ (s.active = true → is_wwdt_in_closed_window s.regs.esr ≠ 0 →
        (xwdt_suspend s).2.regs.esr &&& XWT_WWDT_ESR_WEN_MASK = 0)
    ∧ (s.active = true → is_wwdt_in_closed_window s.regs.esr = 0 →
        (xwdt_suspend s).2 = s)
    ∧ (s.active = false → (xwdt_suspend s).2 = s) := by
  refine ⟨?_, ?_, ?_, ?_⟩
  · unfold xwdt_suspend; split_ifs <;> rfl
  · intro hA hc
    simp [xwdt_suspend, xilinx_wwdt_stop, hA, hc]
    decide
  · intro hA hc
    simp [xwdt_suspend, xilinx_wwdt_stop, hA, hc]
  · intro hA
    simp [xwdt_suspend, hA]

/-- Witness for the amended C9 at an active closed state and an active open
state. -/
theorem C9_suspend_amended_witness :
    (xwdt_suspend (mkS 0 10 0 true)).2.regs.esr &&& XWT_WWDT_ESR_WEN_MASK = 0
    ∧ (xwdt_suspend (mkS 1 10 0 true)).2 = mkS 1 10 0 true :=
  ⟨(C9_suspend_amended (mkS 0 10 0 true)).2.1 rfl (by decide),
   (C9_suspend_amended (mkS 1 10 0 true)).2.2.1 rfl (by decide)⟩

/-- Claim C10: whenever set_timeout succeeds, the stored pretimeout is
reset to 0 and the stored timeout becomes the requested value. -/
theorem C10_set_timeout_clears_pretimeout (f new_time : Nat) (s : WWdtState)
    (h : (xilinx_wwdt_set_timeout f s new_time).1 = .ok ()) :
    (xilinx_wwdt_set_timeout f s new_time).2.pretimeout = 0
    ∧ (xilinx_wwdt_set_timeout f s new_time).2.timeout = new_time := by
  unfold xilinx_wwdt_set_timeout at h ⊢
  split_ifs at h ⊢ with h1 h2
  cases hA : s.active <;> simp [hA, wwdt_start_preserves_config]

/-- Witness for C10: a successful set_timeout at a closed inactive state
with a prior pretimeout of 5. -/
theorem C10_set_timeout_clears_pretimeout_witness :
    (xilinx_wwdt_set_timeout 100000000 (mkS 0 10 5 false) 20).2.pretimeout = 0
    ∧ (xilinx_wwdt_set_timeout 100000000 (mkS 0 10 5 false) 20).2.timeout
      = 20 :=
  C10_set_timeout_clears_pretimeout 100000000 20 (mkS 0 10 5 false) rfl

/-- When every read returns tv1, the polling loop exhausts its fuel and
issues exactly fuel further reads. -/
theorem xwdt_selftest_loop_const (reads : Nat → Nat) (tv1 : Nat)
    (h : ∀ k, reads k = tv1) :
    ∀ fuel idx, xwdt_selftest_loop reads tv1 tv1 idx fuel = (tv1, idx + fuel) := by
  intro fuel
  induction fuel with
  | zero => intro idx; simp [xwdt_selftest_loop]
  | succ n ih =>
    intro idx
    have ha : idx + 1 + n = idx + (n + 1) := by omega
    simp [xwdt_selftest_loop, h idx, ih, ha]

/-- If the current value already differs from tv1, or some read inside the
remaining fuel window differs from tv1, the loop ends on a value different
from tv1. -/
theorem xwdt_selftest_loop_pass (reads : Nat → Nat) (tv1 : Nat) :
    ∀ fuel tv2 idx,
      (tv2 ≠ tv1 ∨ ∃ k, idx ≤ k ∧ k < idx + fuel ∧ reads k ≠ tv1) →
      (xwdt_selftest_loop reads tv1 tv2 idx fuel).1 ≠ tv1 := by
  intro fuel
  induction fuel with
  | zero =>
    intro tv2 idx h
    rcases h with h | ⟨k, hk1, hk2, _⟩
    · simpa [xwdt_selftest_loop] using h
    · omega
  | succ n ih =>
    intro tv2 idx h
    by_cases he : tv2 = tv1
    · rcases h with h | ⟨k, hk1, hk2, hk3⟩
      · exact absurd he h
      · rw [show xwdt_selftest_loop reads tv1 tv2 idx (n + 1)
              = xwdt_selftest_loop reads tv1 (reads idx) (idx + 1) n from by
            simp [xwdt_selftest_loop, he]]
        apply ih
        by_cases hk : k = idx
        · exact Or.inl (hk ▸ hk3)
        · exact Or.inr ⟨k, by omega, by omega, hk3⟩
    · have hs : xwdt_selftest_loop reads tv1 tv2 idx (n + 1) = (tv2, idx) := by
        simp [xwdt_selftest_loop, he]
      rw [hs]
      simpa using he

/-- Claim C8 as stated fails: with a timebase register that never changes,
the selftest does fail, but its loop body runs 65537 times, one more than
the stated cap of 65536 iterations, for a total of 65539 reads. -/
theorem C8_counterexample :
    (xwdt_selftest fun _ => 0) = (XWT_TIMER_FAILED, 65539)
    ∧ (xwdt_selftest fun _ => 0).2 - 2 ≠ XWT_MAX_SELFTEST_LOOP_COUNT := by
  have hl := xwdt_selftest_loop_const (fun _ => 0) 0 (fun _ => rfl)
    (XWT_MAX_SELFTEST_LOOP_COUNT + 1) 2
  have hsel : (xwdt_selftest fun _ => 0) = (XWT_TIMER_FAILED, 65539) := by
    simp only [xwdt_selftest, hl]
    norm_num [XWT_MAX_SELFTEST_LOOP_COUNT]
  refine ⟨hsel, ?_⟩
  rw [hsel]
  decide

/-- Claim C8, amended: with a constant timebase register the selftest
terminates and reports failure after exactly 2 + 65537 = 65539 reads (two
initial reads plus cap + 1 = 65537 loop iterations, the loop condition
being an inclusive comparison with the cap); if some read among the first
2 + 65536 returns a value different from the first read, it reports pass. -/
theorem C8_selftest_amended (reads : Nat → Nat) :
    ((∀ k, reads k = reads 0) →
      xwdt_selftest reads
        = (XWT_TIMER_FAILED, 2 + (XWT_MAX_SELFTEST_LOOP_COUNT + 1)))
    ∧ ((∃ k, 1 ≤ k ∧ k ≤ 2 + XWT_MAX_SELFTEST_LOOP_COUNT ∧ reads k ≠ reads 0) →
      (xwdt_selftest reads).1 = u32not XWT_TIMER_FAILED) := by
  constructor
  · intro h
    have hl := xwdt_selftest_loop_const reads (reads 0) h
      (XWT_MAX_SELFTEST_LOOP_COUNT + 1) 2
    simp only [xwdt_selftest, h 1, hl]
    simp
  · rintro ⟨k, hk1, hk2, hk3⟩
    have hp : (xwdt_selftest_loop reads (reads 0) (reads 1) 2
        (XWT_MAX_SELFTEST_LOOP_COUNT + 1)).1 ≠ reads 0 := by
      apply xwdt_selftest_loop_pass
      by_cases hk : k = 1
      · exact Or.inl (hk ▸ hk3)
      · exact Or.inr ⟨k, by omega, by omega, hk3⟩
    simp only [xwdt_selftest]
    simp [hp]

/-- Witness for the amended C8: a constant register fails after 65539
reads; a register differing at the second read passes. -/
theorem C8_selftest_amended_witness :
    xwdt_selftest (fun _ => 5)
      = (XWT_TIMER_FAILED, 2 + (XWT_MAX_SELFTEST_LOOP_COUNT + 1))
    ∧ (xwdt_selftest (fun k => k)).1 = u32not XWT_TIMER_FAILED :=
  ⟨(C8_selftest_amended (fun _ => 5)).1 (fun _ => rfl),
   (C8_selftest_amended (fun k => k)).2 ⟨1, by omega, by decide, by decide⟩⟩

/-- Under the probe bound on the timeout, the total cycle count fits in
32 bits. -/
theorem total_cycles_lt (f T : Nat) (hT : T ≤ xwdt_probe_max_timeout f) :
    f * T < 2 ^ 32 := by
  unfold xwdt_probe_max_timeout at hT
  have h1 : f * T ≤ f * (U32_MAX / f) := Nat.mul_le_mul_left f hT
  have h2 : f * (U32_MAX / f) ≤ U32_MAX := by
    rw [Nat.mul_comm]
    exact Nat.div_mul_le_self U32_MAX f
  have h3 : U32_MAX < 2 ^ 32 := by norm_num [U32_MAX]
  omega

/-- The window registers written by start when the pretimeout is 0. -/
theorem wwdt_start_regs_nopre (f : Nat) (s : WWdtState) (hf : f ≠ 0)
    (hp0 : s.pretimeout = 0) :
    (xilinx_wwdt_start f s).2.regs.fwr = 0
    ∧ (xilinx_wwdt_start f s).2.regs.swr = f * s.timeout % 2 ^ 64 % 2 ^ 32
    ∧ (xilinx_wwdt_start f s).2.regs.fcr = 0 := by
  simp [xilinx_wwdt_start, hf, hp0, u32, apply_ite WWdtState.regs]

/-- The window registers written by start when the pretimeout cycle count
is nonzero. -/
theorem wwdt_start_regs_pre (f : Nat) (s : WWdtState) (hf : f ≠ 0)
    (hp : f * s.pretimeout % 2 ^ 64 ≠ 0) :
    (xilinx_wwdt_start f s).2.regs.fwr
      = u32 (u64sub (f * s.timeout % 2 ^ 64) (f * s.pretimeout % 2 ^ 64))
    ∧ (xilinx_wwdt_start f s).2.regs.swr
      = f * s.pretimeout % 2 ^ 64 % 2 ^ 32 := by
  have hp2 : ¬f * s.pretimeout % 18446744073709551616 = 0 := by
    simpa using hp
  simp [xilinx_wwdt_start, hf, hp2, u32, apply_ite WWdtState.regs]

/-- Claim C1: for every valid clock rate, timeout and pretimeout, the
FirstWindow and SecondWindow values written by the window start operation
sum to f times the timeout modulo 2^32; with pretimeout 0 the writes are
FirstWindow = 0, SecondWindow = f times the timeout, FunctionControl = 0;
and the 100 MHz, 10 s, 2 s scenario writes FirstWindow = 800000000 and
SecondWindow = 200000000, while the 100 MHz, 10 s, 0 scenario writes
FirstWindow = 0 and SecondWindow = 1000000000. -/
theorem C1_start_window_sum (f : Nat) (s : WWdtState) (hf : 0 < f)
    (hT1 : 1 ≤ s.timeout) (hTmax : s.timeout ≤ xwdt_probe_max_timeout f)
    (hP : s.pretimeout < s.timeout) :
    (((xilinx_wwdt_start f s).2.regs.fwr + (xilinx_wwdt_start f s).2.regs.swr)
        % 2 ^ 32 = f * s.timeout % 2 ^ 32)
    ∧ (s.pretimeout = 0 →
        (xilinx_wwdt_start f s).2.regs.fwr = 0
        ∧ (xilinx_wwdt_start f s).2.regs.swr = f * s.timeout
        ∧ (xilinx_wwdt_start f s).2.regs.fcr = 0)
    ∧ (xilinx_wwdt_start 100000000 (mkS 0 10 2 false)).2.regs.fwr = 800000000
    ∧ (xilinx_wwdt_start 100000000 (mkS 0 10 2 false)).2.regs.swr = 200000000
    ∧ (xilinx_wwdt_start 100000000 (mkS 0 10 0 false)).2.regs.fwr = 0
    ∧ (xilinx_wwdt_start 100000000 (mkS 0 10 0 false)).2.regs.swr = 1000000000
    ∧ (xilinx_wwdt_start 100000000 (mkS 0 10 0 false)).2.regs.fcr = 0 := by
  have hlt : (2 : Nat) ^ 32 < 2 ^ 64 := by norm_num
  have hT32 : f * s.timeout < 2 ^ 32 := total_cycles_lt f s.timeout hTmax
  have hPL : f * s.pretimeout ≤ f * s.timeout :=
    Nat.mul_le_mul_left f (Nat.le_of_lt hP)
  have h64T : f * s.timeout % 2 ^ 64 = f * s.timeout :=
    Nat.mod_eq_of_lt (by omega)
  have h64P : f * s.pretimeout % 2 ^ 64 = f * s.pretimeout :=
    Nat.mod_eq_of_lt (by omega)
  have hpos : (s.pretimeout = 0 →
      (xilinx_wwdt_start f s).2.regs.fwr = 0
      ∧ (xilinx_wwdt_start f s).2.regs.swr = f * s.timeout
      ∧ (xilinx_wwdt_start f s).2.regs.fcr = 0) := by
    intro hp0
    have h := wwdt_start_regs_nopre f s hf.ne' hp0
    rw [h64T, Nat.mod_eq_of_lt hT32] at h
    exact h
  refine ⟨?_, hpos, by decide, by decide, by decide, by decide, by decide⟩
  by_cases hp0 : s.pretimeout = 0
  · obtain ⟨h1, h2, h3⟩ := hpos hp0
    rw [h1, h2, Nat.zero_add]
  · have hpre : f * s.pretimeout ≠ 0 := Nat.mul_ne_zero hf.ne' hp0
    have hpre64 : f * s.pretimeout % 2 ^ 64 ≠ 0 := by rw [h64P]; exact hpre
    have hsub : u64sub (f * s.timeout % 2 ^ 64) (f * s.pretimeout % 2 ^ 64)
        = f * s.timeout - f * s.pretimeout := by
      unfold u64sub
      rw [h64T, h64P, Nat.mod_eq_of_lt (by omega : f * s.timeout < 2 ^ 64),
        Nat.mod_eq_of_lt (by omega : f * s.pretimeout < 2 ^ 64)]
      have e1 : f * s.timeout + 2 ^ 64 - f * s.pretimeout
          = f * s.timeout - f * s.pretimeout + 2 ^ 64 := by omega
      rw [e1, Nat.add_mod_right]
      exact Nat.mod_eq_of_lt (by omega)
    have h := wwdt_start_regs_pre f s hf.ne' hpre64
    rw [hsub, h64P] at h
    rw [h.1, h.2, u32]
    rw [Nat.mod_eq_of_lt (show f * s.timeout - f * s.pretimeout < 2 ^ 32
      by omega)]
    rw [Nat.mod_eq_of_lt (show f * s.pretimeout < 2 ^ 32 by omega)]
    rw [Nat.sub_add_cancel hPL]

/-- Witness for C1 at f = 100 MHz, timeout 10 s, pretimeout 2 s. -/
theorem C1_start_window_sum_witness :
    ((xilinx_wwdt_start 100000000 (mkS 0 10 2 false)).2.regs.fwr
        + (xilinx_wwdt_start 100000000 (mkS 0 10 2 false)).2.regs.swr) % 2 ^ 32
      = 100000000 * (mkS 0 10 2 false).timeout % 2 ^ 32 :=
  (C1_start_window_sum 100000000 (mkS 0 10 2 false) (by decide) (by decide)
    (by decide) (by decide)).1
